import Mathlib

/-!
Shallow embedding of the CFBD basketball MCP server (src/server.js).

The server is a single express handler on POST /mcp: an optional bearer-token
auth check, then JSON-RPC dispatch over the methods initialize, tools/list and
tools/call, where tools/call fans out to 7 tool handlers.  Each tool handler
performs one upstream HTTP GET (modelled here as a `FetchOutcome` oracle in the
environment: parsed JSON array, non-2xx status, or a thrown/timeout error) and
formats a text summary.  Numbers from upstream JSON are modelled as rationals,
parsed dates as integer timestamps, and JavaScript null/undefined distinctions
are kept where the source branches on them (`JsNum`).
-/

/-! ## JavaScript semantics helpers -/

/-- The apostrophe character (used in the name-extraction character class). -/
def apos : Char := Char.ofNat 39

/-- JS truthiness of an optional string: undefined and the empty string are falsy. -/
def jsTruthyStr : Option String → Bool
  | none => false
  | some s => !(s == "")

/-- JS `v || d` for an optional string value. -/
def jsOrStr (v : Option String) (d : String) : String :=
  match v with
  | none => d
  | some s => if s == "" then d else s

/-- JS `v || d` for an optional integer value (0 is falsy). -/
def jsOrInt (v : Option Int) (d : Int) : Int :=
  match v with
  | none => d
  | some n => if n == 0 then d else n

/-- JS truthiness of an optional integer (undefined and 0 are falsy). -/
def jsTruthyInt : Option Int → Bool
  | none => false
  | some n => !(n == 0)

/-- Template-literal rendering of a possibly undefined string. -/
def jsStr : Option String → String
  | none => "undefined"
  | some s => s

/-- Template-literal rendering of a possibly undefined integer. -/
def jsIntStr : Option Int → String
  | none => "undefined"
  | some n => toString n

/-- JS `a > b` on two possibly undefined numbers: any comparison with
undefined is false. -/
def jsGtOpt : Option Int → Option Int → Bool
  | some a, some b => a > b
  | _, _ => false

/-- Containment of `needle` in `hay` as character lists (JS `String.prototype.includes`). -/
def listContains (hay needle : List Char) : Bool :=
  needle.isPrefixOf hay ||
    match hay with
    | [] => false
    | _ :: t => listContains t needle

/-- JS `s.includes(sub)`. -/
def jsIncludes (s sub : String) : Bool :=
  listContains s.toList sub.toList

/-- JS `s.toUpperCase()` (ASCII case mapping; the inputs this server handles
are ASCII team and player names). -/
def jsToUpper (s : String) : String := String.mk (s.toList.map Char.toUpper)

/-- JS `s.toLowerCase()` (ASCII case mapping). -/
def jsToLower (s : String) : String := String.mk (s.toList.map Char.toLower)

/-- JS `s.trim()` (ASCII whitespace; the regex match this server trims never
carries surrounding whitespace, so this is an identity in practice). -/
def jsTrim (s : String) : String :=
  String.mk (((s.toList.dropWhile Char.isWhitespace).reverse.dropWhile Char.isWhitespace).reverse)

/-- A JSON number field that may be absent (undefined), null, or a number. -/
inductive JsNum where
  | miss
  | nul
  | val (q : ℚ)
deriving DecidableEq, Repr

/-- JS truthiness of a JSON number field: undefined, null and 0 are falsy. -/
def JsNum.truthy : JsNum → Bool
  | .val q => !(q == 0)
  | _ => false

/-- Numeric coercion with 0 for the non-number cases (null coerces to 0;
the undefined case yields NaN in JS and is only used here where guards
rule it out or where NaN ordering is idealised, see the sort comparators). -/
def JsNum.get0 : JsNum → ℚ
  | .val q => q
  | _ => 0

/-- JS `x || d` on a JSON number field. -/
def JsNum.jsOr (x : JsNum) (d : ℚ) : ℚ :=
  if x.truthy then x.get0 else d

/-- JS `x > 0` on a JSON number field (false for undefined and null). -/
def JsNum.gt0 : JsNum → Bool
  | .val q => 0 < q
  | _ => false

/-- Decimal rendering of a nonnegative rational to one fractional digit,
rounding ties up (the ECMAScript toFixed choice of the larger candidate). -/
def toFixed1Abs (x : ℚ) : String :=
  let n : Int := (x * 10 + 1 / 2).floor
  let hi := n / 10
  let lo := (n % 10).natAbs
  toString hi ++ "." ++ toString lo

/-- The minus-sign prefix of a negative toFixed rendering. -/
def minusSign : String := "-"

/-- JS `x.toFixed(1)` on a rational value. -/
def toFixed1 (x : ℚ) : String :=
  if x < 0 then minusSign ++ toFixed1Abs (-x) else toFixed1Abs x

/-- Template-literal rendering of a JSON number field (integral numbers
print without a decimal point; upstream counting stats are integral). -/
def jsNumStr (q : ℚ) : String :=
  if q.den == 1 then toString q.num else toFixed1 q

/-- Template-literal rendering of a possibly undefined or null number field. -/
def JsNum.render : JsNum → String
  | .miss => "undefined"
  | .nul => "null"
  | .val q => jsNumStr q

/-- JS `(x / g).toFixed(1)` where `x` is a raw JSON number field: an
undefined numerator gives NaN, a null numerator coerces to 0. -/
def toFixed1Div (x : JsNum) (g : ℚ) : String :=
  match x with
  | .miss => "NaN"
  | .nul => toFixed1 0
  | .val q => toFixed1 (q / g)

/-! ## Player-name extraction

The source extracts a full name from the free-text query with the regex
`\b([A-Z][a-z]+(?:\s+[A-Z][a-z']+)+)\b` and takes the first match.  The
functions below implement that pattern: an uppercase letter, one or more
lowercase letters, then one or more groups of whitespace + uppercase +
lowercase-or-apostrophe run, ending at a word boundary, scanning start
positions left to right and backtracking greedily exactly as the regex
engine does. -/

def isUpperAZ (c : Char) : Bool := 'A' ≤ c && c ≤ 'Z'

def isLowerAZ (c : Char) : Bool := 'a' ≤ c && c ≤ 'z'

def isDigit09 (c : Char) : Bool := '0' ≤ c && c ≤ '9'

/-- JS regex word character, the class `[A-Za-z0-9_]` used by `\b`. -/
def isWordChar (c : Char) : Bool :=
  isUpperAZ c || isLowerAZ c || isDigit09 c || c == '_'

/-- Common JS `\s` whitespace characters (the unicode extras are not used
by the queries this server sees). -/
def isSpaceJS (c : Char) : Bool :=
  c == ' ' || c == '\t' || c == '\n' || c == '\r'

def isLowerOrApos (c : Char) : Bool := isLowerAZ c || c == apos

/-- Find the longest end position inside the final `[a-z']+` run at which a
word boundary holds; `revRun` is the run reversed, `rest` the input after it.
Returns the kept (un-reversed) part of the run. -/
def endOfRunRev : List Char → List Char → Option (List Char)
  | [], _ => none
  | lc :: revRest, rest =>
    let nextNonWord := match rest with
      | [] => true
      | c :: _ => !isWordChar c
    if isWordChar lc && nextNonWord then some ((lc :: revRest).reverse)
    else endOfRunRev revRest (lc :: rest)

/-- Match one or more groups `\s+[A-Z][a-z']+` followed by a word boundary,
returning the consumed characters.  Greedy: prefers a further group after a
full run, then the longest boundary position inside the run. -/
def matchGroups : Nat → List Char → Option (List Char)
  | 0, _ => none
  | fuel + 1, rest =>
    let sp := rest.takeWhile isSpaceJS
    let r1 := rest.dropWhile isSpaceJS
    if sp.isEmpty then none
    else
      match r1 with
      | [] => none
      | u :: r2 =>
        if isUpperAZ u then
          let run := r2.takeWhile isLowerOrApos
          let r3 := r2.dropWhile isLowerOrApos
          if run.isEmpty then none
          else
            match matchGroups fuel r3 with
            | some more => some (sp ++ u :: run ++ more)
            | none =>
              match endOfRunRev run.reverse r3 with
              | some taken => some (sp ++ u :: taken)
              | none => none
        else none

/-- Match `[A-Z][a-z]+(\s+[A-Z][a-z']+)+\b` at the start of the input. -/
def matchNameHere (fuel : Nat) : List Char → Option (List Char)
  | [] => none
  | c :: cs =>
    if isUpperAZ c then
      let run := cs.takeWhile isLowerAZ
      let r2 := cs.dropWhile isLowerAZ
      if run.isEmpty then none
      else
        match matchGroups fuel r2 with
        | some gs => some (c :: run ++ gs)
        | none => none
    else none

/-- Scan start positions left to right; a start position must sit on a word
boundary (the matched text starts with a word character, so the boundary
holds exactly when the previous character is absent or not a word character). -/
def scanName (fuel : Nat) (prev : Option Char) : List Char → Option (List Char)
  | [] => none
  | c :: cs =>
    let boundary := match prev with
      | none => true
      | some p => !isWordChar p
    if boundary then
      match matchNameHere fuel (c :: cs) with
      | some m => some m
      | none => scanName fuel (some c) cs
    else scanName fuel (some c) cs

/-- The player-name extraction applied to the query argument
(`nameMatch[1].trim()` in the source). -/
def extractPlayerName (query : String) : Option String :=
  let cs := query.toList
  match scanName (cs.length + 1) none cs with
  | some m => some (jsTrim (String.mk m))
  | none => none

/-! ## Upstream record shapes (only the fields the server reads) -/

/-- A record from the /games endpoint.  `startDate` is the integer timestamp
of the parsed date (the source compares `new Date(g.startDate)` values). -/
structure Game where
  season : Int
  startDate : Int
  status : Option String
  homeTeam : Option String
  awayTeam : Option String
  homePoints : Option Int
  awayPoints : Option Int
deriving DecidableEq, Repr

/-- The nested rebounds object of a player season-stat record. -/
structure ReboundsObj where
  total : JsNum
deriving DecidableEq, Repr

/-- A nested object carrying a pct field (fieldGoals, threePointFieldGoals,
freeThrows). -/
structure PctStat where
  pct : JsNum
deriving DecidableEq, Repr

/-- A record from the /stats/player/season endpoint. -/
structure PlayerStat where
  season : Int
  name : Option String
  games : JsNum
  points : JsNum
  rebounds : Option ReboundsObj
  assists : JsNum
  fieldGoals : Option PctStat
  threePointFieldGoals : Option PctStat
  freeThrows : Option PctStat
deriving DecidableEq, Repr

/-- The nested teamStats object of a team season-stat record. -/
structure TeamStatsInner where
  fieldGoals : Option PctStat
  threePointFieldGoals : Option PctStat
  freeThrows : Option PctStat
  assists : JsNum
  rebounds : JsNum
  steals : JsNum
  blocks : JsNum
  turnovers : JsNum
deriving DecidableEq, Repr

/-- A record from the /stats/team/season endpoint.  `teamStats` may be absent,
in which case the source throws on the first field read and the catch turns
that into an Error text result. -/
structure TeamSeasonStats where
  season : Int
  games : JsNum
  wins : JsNum
  losses : JsNum
  teamStats : Option TeamStatsInner
deriving DecidableEq, Repr

/-- One entry of a poll.ranks array from the /rankings endpoint. -/
structure RankEntry where
  school : Option String
  rank : Option Int
deriving DecidableEq, Repr

/-- One poll of a rankings record. -/
structure Poll where
  poll : Option String
  ranks : Option (List RankEntry)
deriving DecidableEq, Repr

/-- A record from the /rankings endpoint. -/
structure RankingWeek where
  polls : Option (List Poll)
deriving DecidableEq, Repr

/-- A record from the /stats/player/shooting/season endpoint. -/
structure ShootingStat where
  player : Option String
  fg_pct : JsNum
  two_pt_pct : JsNum
  three_pt_pct : JsNum
  ft_pct : JsNum
deriving DecidableEq, Repr

/-- One player of a roster envelope. -/
structure RosterPlayer where
  name : Option String
  position : Option String
  jersey : Option Int
  height : Option Int
deriving DecidableEq, Repr

/-- A record from the /teams/roster endpoint (an array with one envelope
object holding the players array). -/
structure RosterEnvelope where
  season : Int
  players : Option (List RosterPlayer)
deriving DecidableEq, Repr

/-! ## Shared tool pieces -/

/-- Outcome of one upstream fetch: parsed JSON array (a null payload behaves
exactly like an empty array in every guard, so it is folded into `ok []`),
non-2xx HTTP status, or a thrown error (timeout, network, JSON parse). -/
inductive FetchOutcome (α : Type) where
  | ok (data : α)
  | httpError (status : Nat)
  | failure (message : String)
deriving DecidableEq, Repr

def statusFinal : String := "final"

/-- The `game.homeTeam?.toLowerCase() === team` test. -/
def gameIsHome (team : String) (g : Game) : Bool :=
  match g.homeTeam with
  | none => false
  | some h => jsToLower h == team

def winMark : String := "W"

def lossMark : String := "L"

/-- The W/L decision `teamScore > oppScore ? 'W' : 'L'` (comparison with an
undefined score is false in JS, giving L). -/
def gameResult (teamScore oppScore : Option Int) : String :=
  if jsGtOpt teamScore oppScore then winMark else lossMark

/-- Sort order of the score tool: descending by parsed start date, from the
comparator `new Date(b.startDate) - new Date(a.startDate)`. -/
def gameLeDesc (a b : Game) : Bool := b.startDate ≤ a.startDate

/-- The completed-game test `g.status === 'final' && g.homePoints != null &&
g.awayPoints != null`. -/
def isCompletedGame (g : Game) : Bool :=
  g.status == some statusFinal && !(g.homePoints == none) && !(g.awayPoints == none)

/-! ## Tool 1: get_basketball_score -/

def seasonGamesOf (year : Int) (data : List Game) : List Game :=
  data.filter (fun g => g.season == year)

def completedGamesOf (year : Int) (data : List Game) : List Game :=
  (seasonGamesOf year data).filter isCompletedGame

/-- The game the score tool reports: latest completed season game by start
date (`completedGames.sort(...)[0]`). -/
def recentGameOf (year : Int) (data : List Game) : Option Game :=
  ((completedGamesOf year data).mergeSort gameLeDesc).head?

def noGamesYearMsg (team : String) (year : Int) : String :=
  let t := jsToUpper team
  s!"No basketball games found for {t} in {year}"

def noGamesSeasonMsg (team : String) (year : Int) : String :=
  let t := jsToUpper team
  s!"No basketball games found for {t} in the {year - 1}-{year} season"

def noCompletedMsg (team : String) (year : Int) : String :=
  let t := jsToUpper team
  s!"No completed games found for {t} in the {year - 1}-{year} season yet."

/-- Text produced by the score tool from a 2xx upstream payload. -/
def scoreText (team : String) (year : Int) (data : List Game) : String :=
  if data.length == 0 then noGamesYearMsg team year
  else
    let seasonGames := seasonGamesOf year data
    if seasonGames.length == 0 then noGamesSeasonMsg team year
    else
      let completedGames := seasonGames.filter isCompletedGame
      if completedGames.length == 0 then noCompletedMsg team year
      else
        match recentGameOf year data with
        | none => noCompletedMsg team year
        | some recentGame =>
          let t := jsToUpper team
          let header := s!"🏀 {t} BASKETBALL - Most Recent Game\n\n"
          let isHome := gameIsHome team recentGame
          let opponent := if isHome then recentGame.awayTeam else recentGame.homeTeam
          let teamScore := if isHome then recentGame.homePoints else recentGame.awayPoints
          let oppScore := if isHome then recentGame.awayPoints else recentGame.homePoints
          let result := gameResult teamScore oppScore
          let opp := jsStr opponent
          let ts := jsIntStr teamScore
          let os := jsIntStr oppScore
          let body := header ++ s!"{result} vs {opp}\n" ++ s!"Final: {ts}-{os}\n"
          if recentGame.status == some statusFinal then body ++ "Status: Final\n"
          else body

/-! ## Tool 2: get_basketball_player_stats -/

/-- Name filter of the player-stats tool:
`p.name?.toLowerCase().includes(nm.toLowerCase()) ||
 nm.toLowerCase().includes(p.name?.toLowerCase())`.
When the record has no name the first disjunct is undefined (falsy) and the
second coerces undefined to the string "undefined". -/
def undefinedStr : String := "undefined"

def playerNameTest (nm : String) (p : PlayerStat) : Bool :=
  match p.name with
  | some n => jsIncludes (jsToLower n) (jsToLower nm) || jsIncludes (jsToLower nm) (jsToLower n)
  | none => jsIncludes (jsToLower nm) undefinedStr

def seasonPlayersOf (year : Int) (data : List PlayerStat) : List PlayerStat :=
  data.filter (fun p => p.season == year)

/-- Extraction step shared by the player-stats and shooting tools: a falsy
query applies no extraction (`if (args.query)`). -/
def queryName (query : Option String) : Option String :=
  match query with
  | none => none
  | some q => if q == "" then none else extractPlayerName q

def noPlayerStatsMsg (team : String) (year : Int) : String :=
  let t := jsToUpper team
  s!"No player stats found for {t} basketball in the {year - 1}-{year} season"

def noPlayerStatsSeasonMsg (team : String) (year : Int) (currentYear : Int) : String :=
  let t := jsToUpper team
  s!"No player stats found for {t} basketball in the {year - 1}-{year} season.\n\nThe current season is 2025-2026 (year={currentYear}). Try asking for that year!"

def playerNotFoundMsg (nm team : String) (year : Int) : String :=
  let t := jsToUpper team
  s!"{nm} is not listed in {t}\x27s {year - 1}-{year} basketball roster.\n\nThis player may:\n• Play for a different team\n• Not have recorded stats this season\n• Have a different spelling of their name"

/-- The points-per-game line of the single-player detail view
(`Points Per Game: ${(player.points / games).toFixed(1)}`). -/
def pointsPerGameLine (p : PlayerStat) : String :=
  let v := toFixed1 (p.points.get0 / (p.games.jsOr 1))
  s!"Points Per Game: {v}\n"

/-- The rebounds line of the detail view (present whenever the rebounds
object is, dividing its total by games). -/
def reboundsPart (p : PlayerStat) (games : ℚ) : String :=
  match p.rebounds with
  | some r =>
    let v := toFixed1Div r.total games
    s!"Rebounds Per Game: {v}\n"
  | none => ""

/-- The assists line of the detail view, guarded by truthiness. -/
def assistsPart (p : PlayerStat) (games : ℚ) : String :=
  if p.assists.truthy then
    let v := toFixed1 (p.assists.get0 / games)
    s!"Assists Per Game: {v}\n"
  else ""

/-- A percentage line of the player detail view, guarded by the truthiness
of the optional chain `player.X?.pct` and rendered without scaling. -/
def playerPctPart (label : String) (x : Option PctStat) : String :=
  match x with
  | some st =>
    if st.pct.truthy then
      let v := toFixed1 st.pct.get0
      label ++ s!"{v}%\n"
    else ""
  | none => ""

/-- Detail text for a single matched player (source lines 348-359): a
header, a games line, then the conditionally present stat lines in order. -/
def playerDetailText (year : Int) (p : PlayerStat) : String :=
  let games := p.games.jsOr 1
  let fallbackName := "PLAYER"
  let displayName :=
    match p.name with
    | none => fallbackName
    | some n => if n == "" then fallbackName else jsToUpper n
  let g := p.games.render
  let fgLabel := "FG%: "
  let tpLabel := "3PT%: "
  let ftLabel := "FT%: "
  s!"🏀 {displayName} - {year - 1}-{year}\n\n" ++ s!"Games: {g}\n"
    ++ (if p.points.truthy then pointsPerGameLine p else "")
    ++ reboundsPart p games
    ++ assistsPart p games
    ++ playerPctPart fgLabel p.fieldGoals
    ++ playerPctPart tpLabel p.threePointFieldGoals
    ++ playerPctPart ftLabel p.freeThrows

/-- Points per game used by the top-scorers sort comparator
`(b.points / b.games) - (a.points / a.games)`; records without a points
value sort as 0 (in JS a missing value makes the comparator NaN, whose
sort order is unspecified). -/
def ppgKey (p : PlayerStat) : ℚ := p.points.get0 / p.games.get0

def ppgLeDesc (a b : PlayerStat) : Bool := ppgKey b ≤ ppgKey a

/-- One line of the top-scorers list. -/
def scorerLine (ip : Nat × PlayerStat) : String :=
  let i := ip.1
  let p := ip.2
  let nm := jsStr p.name
  let v := toFixed1Div p.points p.games.get0
  s!"{i + 1}. {nm}: {v} PPG\n"

/-- Team-wide top-scorers text (the else branch of the detail view). -/
def topScorersText (team : String) (year : Int) (pool : List PlayerStat) : String :=
  let t := jsToUpper team
  let header := s!"🏀 {t} BASKETBALL LEADERS - {year - 1}-{year}\n\n" ++ "TOP SCORERS:\n"
  let eligible := pool.filter (fun p => p.games.gt0)
  let topScorers := (eligible.mergeSort ppgLeDesc).take 5
  topScorers.enum.foldl (fun acc ip => acc ++ scorerLine ip) header

/-- Text produced by the player-stats tool from a 2xx upstream payload. -/
def playerStatsText (team : String) (year : Int) (query : Option String)
    (currentYear : Int) (data : List PlayerStat) : String :=
  if data.length == 0 then noPlayerStatsMsg team year
  else
    let seasonData := seasonPlayersOf year data
    if seasonData.length == 0 then noPlayerStatsSeasonMsg team year currentYear
    else
      match queryName query with
      | some nm =>
        let filteredData := seasonData.filter (playerNameTest nm)
        if filteredData.length == 0 then playerNotFoundMsg nm team year
        else
          match filteredData.head? with
          | some player => playerDetailText year player
          | none => playerNotFoundMsg nm team year
      | none => topScorersText team year seasonData

/-! ## Tool 3: get_basketball_team_stats -/

def seasonTeamStatsOf (year : Int) (data : List TeamSeasonStats) : List TeamSeasonStats :=
  data.filter (fun d => d.season == year)

def noTeamStatsMsg (team : String) (year : Int) : String :=
  let t := jsToUpper team
  s!"No team stats found for {t} basketball in {year}"

def noTeamStatsSeasonMsg (team : String) (year : Int) (currentYear : Int) : String :=
  let t := jsToUpper team
  s!"No team stats found for {t} basketball in the {year - 1}-{year} season.\n\nThe current season is 2025-2026 (year={currentYear}). Try that year!"

/-- The message of the TypeError thrown when `teamData.teamStats` is absent
and `stats.fieldGoals` is read (V8 wording); the catch renders it as an
Error result text. -/
def readFieldGoalsErr : String :=
  "Cannot read properties of undefined (reading \x27fieldGoals\x27)"

/-- A percentage line of the team-stats view: skipped when the pct field is
null (`pct !== null`), NaN when it is absent, else `(pct * 100).toFixed(1)`. -/
def teamPctPart (label : String) (x : Option PctStat) : String :=
  match x with
  | none => ""
  | some st =>
    match st.pct with
    | .nul => ""
    | .miss => label ++ "NaN%\n"
    | .val q =>
      let v := toFixed1 (q * 100)
      label ++ s!"{v}%\n"

/-- A per-game counting line of the team-stats view, guarded by truthiness. -/
def teamPerGamePart (label : String) (x : JsNum) (games : ℚ) : String :=
  if x.truthy then
    let v := toFixed1 (x.get0 / games)
    label ++ s!"{v}\n"
  else ""

/-- Text produced by the team-stats tool from a 2xx upstream payload. -/
def teamStatsText (team : String) (year : Int) (currentYear : Int)
    (data : List TeamSeasonStats) : String :=
  if data.length == 0 then noTeamStatsMsg team year
  else
    let filteredData := seasonTeamStatsOf year data
    if filteredData.length == 0 then noTeamStatsSeasonMsg team year currentYear
    else
      match filteredData.head? with
      | none => noTeamStatsSeasonMsg team year currentYear
      | some teamData =>
        match teamData.teamStats with
        | none => "Error: " ++ readFieldGoalsErr
        | some stats =>
          let t := jsToUpper team
          let header := s!"🏀 {t} BASKETBALL TEAM STATS - {year - 1}-{year} Season\n\n"
          let g := teamData.games.render
          let t1 := if teamData.games.truthy then header ++ s!"Games Played: {g}\n" else header
          let w := teamData.wins.render
          let l := teamData.losses.render
          let t2 :=
            if !(teamData.wins == JsNum.miss) && !(teamData.losses == JsNum.miss) then
              t1 ++ s!"Record: {w}-{l}\n\n"
            else t1
          let games := teamData.games.jsOr 1
          let fgLabel := "Field Goal %: "
          let tpLabel := "Three Point %: "
          let ftLabel := "Free Throw %: "
          let astLabel := "Assists Per Game: "
          let rebLabel := "Rebounds Per Game: "
          let stlLabel := "Steals Per Game: "
          let blkLabel := "Blocks Per Game: "
          let tovLabel := "Turnovers Per Game: "
          t2 ++ teamPctPart fgLabel stats.fieldGoals
             ++ teamPctPart tpLabel stats.threePointFieldGoals
             ++ teamPctPart ftLabel stats.freeThrows
             ++ teamPerGamePart astLabel stats.assists games
             ++ teamPerGamePart rebLabel stats.rebounds games
             ++ teamPerGamePart stlLabel stats.steals games
             ++ teamPerGamePart blkLabel stats.blocks games
             ++ teamPerGamePart tovLabel stats.turnovers games

/-! ## Tool 4: get_basketball_schedule -/

def noScheduleMsg (team : String) (year : Int) : String :=
  let t := jsToUpper team
  s!"No schedule found for {t} basketball in {year}"

def noScheduleSeasonMsg (team : String) (year : Int) (currentYear : Int) : String :=
  let t := jsToUpper team
  s!"No basketball games found for {t} in the {year - 1}-{year} season.\n\nThe current season is 2025-2026 (year={currentYear}). Try asking for that year!"

/-- One line of the schedule listing. -/
def scheduleLine (team : String) (ig : Nat × Game) : String :=
  let idx := ig.1
  let game := ig.2
  let isHome := gameIsHome team game
  let opponent := if isHome then game.awayTeam else game.homeTeam
  let homeMark := "vs"
  let awayMark := "@"
  let location := if isHome then homeMark else awayMark
  let opp := jsStr opponent
  let base := s!"{idx + 1}. {location} {opp}"
  let withScore :=
    if game.status == some statusFinal then
      let teamScore := if isHome then game.homePoints else game.awayPoints
      let oppScore := if isHome then game.awayPoints else game.homePoints
      let result := gameResult teamScore oppScore
      let ts := jsIntStr teamScore
      let os := jsIntStr oppScore
      base ++ s!" - {result} {ts}-{os}"
    else base
  withScore ++ "\n"

/-- Text produced by the schedule tool from a 2xx upstream payload. -/
def scheduleText (team : String) (year : Int) (currentYear : Int)
    (data : List Game) : String :=
  if data.length == 0 then noScheduleMsg team year
  else
    let filteredGames := seasonGamesOf year data
    if filteredGames.length == 0 then noScheduleSeasonMsg team year currentYear
    else
      let t := jsToUpper team
      let header := s!"🏀 {t} BASKETBALL SCHEDULE - {year - 1}-{year} Season\n\n"
      filteredGames.enum.foldl (fun acc ig => acc ++ scheduleLine team ig) header

/-! ## Tool 5: get_basketball_rankings -/

def notRankedMsg (team : String) (year : Int) : String :=
  let t := jsToUpper team
  s!"{t} was not ranked at any point during the {year} basketball season."

def notRankedRecentText (team : String) (year : Int) : String :=
  let t := jsToUpper team
  s!"🏀 {t} - {year} BASKETBALL SEASON\n\n" ++ s!"{t} was not ranked in the most recent {year} basketball polls."

/-- The `poll.ranks?.find(r => r.school?.toLowerCase() === team)` lookup. -/
def findTeamRank (team : String) (p : Poll) : Option RankEntry :=
  match p.ranks with
  | none => none
  | some rs =>
    rs.find? (fun r =>
      match r.school with
      | some s => jsToLower s == team
      | none => false)

def pollLine (team : String) (p : Poll) : String :=
  match findTeamRank team p with
  | some r =>
    let nm := jsStr p.poll
    let rk := jsIntStr r.rank
    s!"{nm}: #{rk}\n"
  | none => ""

/-- Text produced by the rankings tool from a 2xx upstream payload. -/
def rankingsText (team : String) (year : Int) (data : List RankingWeek) : String :=
  if data.length == 0 then notRankedMsg team year
  else
    match data.getLast? with
    | none => notRankedMsg team year
    | some latestRanking =>
      let t := jsToUpper team
      let header := s!"🏀 {t} BASKETBALL RANKINGS - {year}\n\n"
      let polls := match latestRanking.polls with
        | none => []
        | some ps => ps
      let found := polls.any (fun p => (findTeamRank team p).isSome)
      if found then polls.foldl (fun acc p => acc ++ pollLine team p) header
      else notRankedRecentText team year

/-! ## Tool 6: get_basketball_shooting_stats -/

def noShootingMsg (team : String) (year : Int) : String :=
  let t := jsToUpper team
  s!"No shooting stats found for {t} basketball in {year}"

def noShootingPlayerMsg (nm team : String) (year : Int) : String :=
  let t := jsToUpper team
  s!"No shooting stats found for {nm} on {t} in {year}"

/-- Name lookup of the shooting tool:
`p.player?.toLowerCase().includes(playerName.toLowerCase())` — only the
record-contains-extracted direction, and records without a player name are
skipped (the optional chain is undefined, hence falsy). -/
def shootingNameTest (nm : String) (p : ShootingStat) : Bool :=
  match p.player with
  | some n => jsIncludes (jsToLower n) (jsToLower nm)
  | none => false

/-- A shooting percentage line, guarded by `!== undefined` (null coerces to
0, which renders as 0.0). -/
def shootingPctPart (label : String) (x : JsNum) : String :=
  match x with
  | .miss => ""
  | .nul =>
    let v := toFixed1 0
    label ++ s!"{v}%\n"
  | .val q =>
    let v := toFixed1 (q * 100)
    label ++ s!"{v}%\n"

/-- Detail text for a single found shooting record. -/
def shootingDetailText (year : Int) (p : ShootingStat) : String :=
  let nm := match p.player with
    | none => "undefined"
    | some n => jsToUpper n
  let fgLabel := "FG%: "
  let twoLabel := "2PT%: "
  let threeLabel := "3PT%: "
  let ftLabel := "FT%: "
  s!"🏀 {nm} SHOOTING - {year}\n\n"
    ++ shootingPctPart fgLabel p.fg_pct
    ++ shootingPctPart twoLabel p.two_pt_pct
    ++ shootingPctPart threeLabel p.three_pt_pct
    ++ shootingPctPart ftLabel p.ft_pct

def threePtLeDesc (a b : ShootingStat) : Bool :=
  b.three_pt_pct.get0 ≤ a.three_pt_pct.get0

/-- One line of the top 3-point shooters list. -/
def shooterLine (ip : Nat × ShootingStat) : String :=
  let i := ip.1
  let p := ip.2
  let nm := jsStr p.player
  let v := toFixed1 (p.three_pt_pct.get0 * 100)
  s!"{i + 1}. {nm}: {v}%\n"

/-- Text produced by the shooting tool from a 2xx upstream payload. -/
def shootingText (team : String) (year : Int) (query : Option String)
    (data : List ShootingStat) : String :=
  if data.length == 0 then noShootingMsg team year
  else
    match queryName query with
    | some nm =>
      match data.find? (shootingNameTest nm) with
      | none => noShootingPlayerMsg nm team year
      | some player => shootingDetailText year player
    | none =>
      let t := jsToUpper team
      let header := s!"🏀 {t} SHOOTING STATS - {year}\n\n" ++ "TOP 3-POINT SHOOTERS:\n"
      let top3PT := ((data.filter (fun p => p.three_pt_pct.truthy)).mergeSort threePtLeDesc).take 5
      top3PT.enum.foldl (fun acc ip => acc ++ shooterLine ip) header

/-! ## Tool 7: get_basketball_roster -/

def noRosterMsg (team : String) (year : Int) : String :=
  let t := jsToUpper team
  s!"No roster found for {t} basketball in the {year - 1}-{year} season"

def noRosterSeasonMsg (team : String) (year : Int) (currentYear : Int) : String :=
  let t := jsToUpper team
  s!"No roster found for {t} basketball in the {year - 1}-{year} season.\n\nThe current season is 2025-2026 (year={currentYear}). Try that year!"

/-- One line of the roster listing, with position, jersey and height when
truthy. -/
def rosterLine (ip : Nat × RosterPlayer) : String :=
  let idx := ip.1
  let player := ip.2
  let nm := jsStr player.name
  let base := s!"{idx + 1}. {nm}"
  let b1 := match player.position with
    | some pos => if pos == "" then base else base ++ s!" - {pos}"
    | none => base
  let b2 :=
    if jsTruthyInt player.jersey then
      let j := jsIntStr player.jersey
      b1 ++ s!" (#{j})"
    else b1
  let b3 :=
    if jsTruthyInt player.height then
      let h := jsIntStr player.height
      b2 ++ s!" - {h}"
    else b2
  b3 ++ "\n"

/-- The roster empty guard `!data || data.length === 0 || !data[0] ||
!data[0].players || data[0].players.length === 0`. -/
def rosterEmptyGuard (data : List RosterEnvelope) : Bool :=
  match data.head? with
  | none => true
  | some first =>
    match first.players with
    | none => true
    | some ps => ps.length == 0

/-- Text produced by the roster tool from a 2xx upstream payload. -/
def rosterText (team : String) (year : Int) (currentYear : Int)
    (data : List RosterEnvelope) : String :=
  if rosterEmptyGuard data then noRosterMsg team year
  else
    match data.head? with
    | none => noRosterMsg team year
    | some rosterData =>
      if !(rosterData.season == year) then noRosterSeasonMsg team year currentYear
      else
        let t := jsToUpper team
        let header := s!"🏀 {t} BASKETBALL ROSTER - {year - 1}-{year}\n\n"
        let players := match rosterData.players with
          | none => []
          | some ps => ps
        players.enum.foldl (fun acc ip => acc ++ rosterLine ip) header

/-! ## JSON-RPC envelope, tool catalog, dispatcher -/

structure RpcError where
  code : Int
  message : String
deriving DecidableEq, Repr

structure SchemaProp where
  name : String
  type : String
  description : String
deriving DecidableEq, Repr

structure InputSchema where
  type : String
  properties : List SchemaProp
  required : List String
deriving DecidableEq, Repr

structure ToolDef where
  name : String
  description : String
  inputSchema : InputSchema
deriving DecidableEq, Repr

def scoreToolNm : String := "get_basketball_score"

def playerStatsToolNm : String := "get_basketball_player_stats"

def teamStatsToolNm : String := "get_basketball_team_stats"

def scheduleToolNm : String := "get_basketball_schedule"

def rankingsToolNm : String := "get_basketball_rankings"

def shootingToolNm : String := "get_basketball_shooting_stats"

def rosterToolNm : String := "get_basketball_roster"

/-- The result payload variants the server produces. -/
inductive ResultPayload where
  | initInfo (protocolVersion : String) (serverName : String) (serverVersion : String)
  | toolCatalogPayload (tools : List ToolDef)
  | content (text : String)
deriving DecidableEq, Repr

structure RpcResponse where
  status : Nat
  result : Option ResultPayload
  error : Option RpcError
  id : Option Int
deriving DecidableEq, Repr

/-- Arguments of a tools/call request. -/
structure ToolArgs where
  team : Option String
  year : Option Int
  query : Option String
deriving DecidableEq, Repr

/-- The params of a tools/call request; `arguments` may be absent, in which
case reading `args.team` throws and the outer catch answers -32603. -/
structure CallParams where
  name : Option String
  arguments : Option ToolArgs
deriving DecidableEq, Repr

/-- A parsed JSON-RPC request body. -/
structure RpcBody where
  method : Option String
  params : Option CallParams
  id : Option Int
deriving DecidableEq, Repr

/-- Process environment plus the upstream oracle: one fetch outcome per
upstream endpoint, fixed for the request being modelled. -/
structure Env where
  mcpApiKey : Option String
  cfbdKey : Option String
  currentYear : Int
  gamesData : FetchOutcome (List Game)
  playerStatsData : FetchOutcome (List PlayerStat)
  teamStatsData : FetchOutcome (List TeamSeasonStats)
  rankingsData : FetchOutcome (List RankingWeek)
  shootingData : FetchOutcome (List ShootingStat)
  rosterData : FetchOutcome (List RosterEnvelope)
deriving DecidableEq, Repr

def schemaTeamProp : SchemaProp :=
  { name := "team", type := "string", description := "Team name (e.g., \"oklahoma\")" }

def schemaYearProp : SchemaProp :=
  { name := "year", type := "number", description := "Season year (default: 2025)" }

def schemaQueryProp : SchemaProp :=
  { name := "query", type := "string", description := "Optional player name to filter" }

def teamYearSchema : InputSchema :=
  { type := "object", properties := [schemaTeamProp, schemaYearProp], required := ["team"] }

def teamYearQuerySchema : InputSchema :=
  { type := "object", properties := [schemaTeamProp, schemaYearProp, schemaQueryProp],
    required := ["team"] }

/-- The static catalog returned by tools/list. -/
def toolCatalog : List ToolDef :=
  [ { name := scoreToolNm,
      description := "Get recent basketball game scores and results",
      inputSchema := teamYearSchema },
    { name := playerStatsToolNm,
      description := "Get individual basketball player statistics for a team",
      inputSchema := teamYearQuerySchema },
    { name := teamStatsToolNm,
      description := "Get team basketball statistics for a season",
      inputSchema := teamYearSchema },
    { name := scheduleToolNm,
      description := "Get basketball team schedule",
      inputSchema := teamYearSchema },
    { name := rankingsToolNm,
      description := "Get basketball team rankings (AP Poll, Coaches Poll)",
      inputSchema := teamYearSchema },
    { name := shootingToolNm,
      description := "Get shooting statistics (FG%, 3PT%, FT%) for team or player",
      inputSchema := teamYearQuerySchema },
    { name := rosterToolNm,
      description := "Get current team roster",
      inputSchema := teamYearSchema } ]

/-- The 7 registered tool names, in dispatch order. -/
def knownToolNames : List String :=
  [ scoreToolNm, playerStatsToolNm, teamStatsToolNm, scheduleToolNm, rankingsToolNm,
    shootingToolNm, rosterToolNm ]

/-- A 200 response with a text content result (`res.json({.., result: {content: [...]}})`). -/
def okContent (text : String) (id : Option Int) : RpcResponse :=
  { status := 200, result := some (.content text), error := none, id := id }

/-- A 200 response with a JSON-RPC error member. -/
def errorResponse (code : Int) (message : String) (id : Option Int) : RpcResponse :=
  { status := 200, result := none, error := some { code := code, message := message }, id := id }

/-- The 500 response of the outer catch (`error.code -32603`). -/
def internalError (message : String) (id : Option Int) : RpcResponse :=
  { status := 500, result := none, error := some { code := -32603, message := message }, id := id }

def msgUnauthorized : String := "Unauthorized"

/-- The 401 auth-failure response. -/
def unauthorized (id : Option Int) : RpcResponse :=
  { status := 401, result := none, error := some { code := -32001, message := msgUnauthorized },
    id := id }

def keyMissingMsg : String := "Error: CFBD Basketball API key not configured"

def apiErrorMsg (status : Nat) : String := s!"CFBD API error: {status}"

def fetchErrMsg (message : String) : String := s!"Error: {message}"

def unknownToolMsg (n : String) : String := s!"Unknown tool: {n}"

def unknownMethodMsg (m : String) : String := s!"Unknown method: {m}"

/-- The TypeError message for `args.team` when `arguments` is absent. -/
def readTeamErr : String := "Cannot read properties of undefined (reading \x27team\x27)"

/-- Every tool wraps its fetch the same way: a 2xx payload goes to the
formatter, a non-2xx status and a thrown error become fixed texts; all
three are 200 results. -/
def toolResponse {α : Type} (fetch : FetchOutcome α) (fmt : α → String)
    (id : Option Int) : RpcResponse :=
  okContent
    (match fetch with
     | .ok data => fmt data
     | .httpError s => apiErrorMsg s
     | .failure m => fetchErrMsg m)
    id

/-- The fallback team of the `args.team || 'oklahoma'` defaulting. -/
def defaultTeam : String := "oklahoma"

/-- The normalized team argument `(args.team || 'oklahoma').toLowerCase()`. -/
def teamUsed (args : ToolArgs) : String := jsToLower (jsOrStr args.team defaultTeam)

/-- The season argument `args.year || 2025`. -/
def yearUsed (args : ToolArgs) : Int := jsOrInt args.year 2025

/-- The tools/call branch: upstream-key guard, argument normalization, then
the 7-way name dispatch with the unknown-tool error as fallback. -/
def dispatchToolCall (env : Env) (p : CallParams) (id : Option Int) : RpcResponse :=
  if !(jsTruthyStr env.cfbdKey) then okContent keyMissingMsg id
  else
    match p.arguments with
    | none => internalError readTeamErr id
    | some args =>
      let team := teamUsed args
      let year := yearUsed args
      if p.name == some scoreToolNm then
        toolResponse env.gamesData (scoreText team year) id
      else if p.name == some playerStatsToolNm then
        toolResponse env.playerStatsData (playerStatsText team year args.query env.currentYear) id
      else if p.name == some teamStatsToolNm then
        toolResponse env.teamStatsData (teamStatsText team year env.currentYear) id
      else if p.name == some scheduleToolNm then
        toolResponse env.gamesData (scheduleText team year env.currentYear) id
      else if p.name == some rankingsToolNm then
        toolResponse env.rankingsData (rankingsText team year) id
      else if p.name == some shootingToolNm then
        toolResponse env.shootingData (shootingText team year args.query) id
      else if p.name == some rosterToolNm then
        toolResponse env.rosterData (rosterText team year env.currentYear) id
      else
        errorResponse (-32601) (unknownToolMsg (jsStr p.name)) id

def protocolVer : String := "2025-06-18"

def serverNm : String := "cfbd-basketball"

def serverVer : String := "1.0.0"

/-- The fixed initialize result. -/
def initializeResponse (id : Option Int) : RpcResponse :=
  { status := 200,
    result := some (.initInfo protocolVer serverNm serverVer),
    error := none, id := id }

/-- The tools/list result: the static catalog verbatim. -/
def toolsListResponse (id : Option Int) : RpcResponse :=
  { status := 200, result := some (.toolCatalogPayload toolCatalog), error := none, id := id }

/-- The TypeError message for destructuring an absent params object. -/
def destructureParamsErr : String :=
  "Cannot destructure property \x27name\x27 of \x27params\x27 as it is undefined."

def initMethodNm : String := "initialize"

def toolsListMethodNm : String := "tools/list"

def toolsCallMethodNm : String := "tools/call"

/-- The message dispatch after the auth check: initialize, tools/list,
tools/call, unknown method. -/
def dispatchRpc (env : Env) (body : RpcBody) : RpcResponse :=
  if body.method == some initMethodNm then initializeResponse body.id
  else if body.method == some toolsListMethodNm then toolsListResponse body.id
  else if body.method == some toolsCallMethodNm then
    match body.params with
    | none => internalError destructureParamsErr body.id
    | some p => dispatchToolCall env p body.id
  else errorResponse (-32601) (unknownMethodMsg (jsStr body.method)) body.id

/-- The POST /mcp handler: bearer-token check when an auth secret is
configured (a truthy MCP_API_KEY), then JSON-RPC dispatch. -/
def handleMcpPost (env : Env) (auth : Option String) (body : RpcBody) : RpcResponse :=
  if jsTruthyStr env.mcpApiKey then
    let expected := "Bearer " ++ env.mcpApiKey.getD ""
    if !(jsTruthyStr auth) || !(auth == some expected) then unauthorized body.id
    else dispatchRpc env body
  else dispatchRpc env body

/-! ## Helper lemmas -/

theorem listContains_self (b : List Char) : listContains b b = true := by
  unfold listContains
  simp [List.isPrefixOf_iff_prefix]

theorem listContains_append_left (a b : List Char) :
    listContains (a ++ b) b = true := by
  induction a with
  | nil => simpa using listContains_self b
  | cons x xs ih =>
    unfold listContains
    simp only [List.cons_append]
    simp [ih]

theorem jsIncludes_append_left (a b : String) : jsIncludes (a ++ b) b = true := by
  unfold jsIncludes
  have : (a ++ b).toList = a.toList ++ b.toList := by
    simp [String.toList, String.data_append]
  rw [this]
  exact listContains_append_left a.toList b.toList

theorem jsIncludes_append_mid (a b c : String) :
    jsIncludes (a ++ (b ++ c)) b = true := by
  unfold jsIncludes
  have h1 : (a ++ (b ++ c)).toList = a.toList ++ (b.toList ++ c.toList) := by
    simp [String.toList, String.data_append]
  rw [h1]
  induction a.toList with
  | nil =>
    unfold listContains
    simp [List.isPrefixOf_iff_prefix]
  | cons x xs ih =>
    unfold listContains
    simp only [List.cons_append]
    simp only [Bool.or_eq_true]
    exact Or.inr ih

theorem dispatch_key_missing (env : Env) (p : CallParams) (id : Option Int)
    (hkey : jsTruthyStr env.cfbdKey = false) :
    dispatchToolCall env p id = okContent keyMissingMsg id := by
  unfold dispatchToolCall
  simp [hkey]

theorem dispatch_score (env : Env) (p : CallParams) (args : ToolArgs) (id : Option Int)
    (hkey : jsTruthyStr env.cfbdKey = true) (hargs : p.arguments = some args)
    (hname : p.name = some scoreToolNm) :
    dispatchToolCall env p id =
      toolResponse env.gamesData (scoreText (teamUsed args) (yearUsed args)) id := by
  unfold dispatchToolCall
  simp [hkey, hargs, hname]

theorem dispatch_player_stats (env : Env) (p : CallParams) (args : ToolArgs) (id : Option Int)
    (hkey : jsTruthyStr env.cfbdKey = true) (hargs : p.arguments = some args)
    (hname : p.name = some playerStatsToolNm) :
    dispatchToolCall env p id =
      toolResponse env.playerStatsData
        (playerStatsText (teamUsed args) (yearUsed args) args.query env.currentYear) id := by
  unfold dispatchToolCall
  simp [hkey, hargs, hname, scoreToolNm, playerStatsToolNm]

theorem dispatch_team_stats (env : Env) (p : CallParams) (args : ToolArgs) (id : Option Int)
    (hkey : jsTruthyStr env.cfbdKey = true) (hargs : p.arguments = some args)
    (hname : p.name = some teamStatsToolNm) :
    dispatchToolCall env p id =
      toolResponse env.teamStatsData
        (teamStatsText (teamUsed args) (yearUsed args) env.currentYear) id := by
  unfold dispatchToolCall
  simp [hkey, hargs, hname, scoreToolNm, playerStatsToolNm, teamStatsToolNm]

theorem dispatch_schedule (env : Env) (p : CallParams) (args : ToolArgs) (id : Option Int)
    (hkey : jsTruthyStr env.cfbdKey = true) (hargs : p.arguments = some args)
    (hname : p.name = some scheduleToolNm) :
    dispatchToolCall env p id =
      toolResponse env.gamesData
        (scheduleText (teamUsed args) (yearUsed args) env.currentYear) id := by
  unfold dispatchToolCall
  simp [hkey, hargs, hname, scoreToolNm, playerStatsToolNm, teamStatsToolNm, scheduleToolNm]

theorem dispatch_rankings (env : Env) (p : CallParams) (args : ToolArgs) (id : Option Int)
    (hkey : jsTruthyStr env.cfbdKey = true) (hargs : p.arguments = some args)
    (hname : p.name = some rankingsToolNm) :
    dispatchToolCall env p id =
      toolResponse env.rankingsData (rankingsText (teamUsed args) (yearUsed args)) id := by
  unfold dispatchToolCall
  simp [hkey, hargs, hname, scoreToolNm, playerStatsToolNm, teamStatsToolNm, scheduleToolNm,
    rankingsToolNm]

theorem dispatch_shooting (env : Env) (p : CallParams) (args : ToolArgs) (id : Option Int)
    (hkey : jsTruthyStr env.cfbdKey = true) (hargs : p.arguments = some args)
    (hname : p.name = some shootingToolNm) :
    dispatchToolCall env p id =
      toolResponse env.shootingData
        (shootingText (teamUsed args) (yearUsed args) args.query) id := by
  unfold dispatchToolCall
  simp [hkey, hargs, hname, scoreToolNm, playerStatsToolNm, teamStatsToolNm, scheduleToolNm,
    rankingsToolNm, shootingToolNm]

theorem dispatch_roster (env : Env) (p : CallParams) (args : ToolArgs) (id : Option Int)
    (hkey : jsTruthyStr env.cfbdKey = true) (hargs : p.arguments = some args)
    (hname : p.name = some rosterToolNm) :
    dispatchToolCall env p id =
      toolResponse env.rosterData
        (rosterText (teamUsed args) (yearUsed args) env.currentYear) id := by
  unfold dispatchToolCall
  simp [hkey, hargs, hname, scoreToolNm, playerStatsToolNm, teamStatsToolNm, scheduleToolNm,
    rankingsToolNm, shootingToolNm, rosterToolNm]

theorem dispatch_unknown (env : Env) (p : CallParams) (args : ToolArgs) (id : Option Int)
    (s : String)
    (hkey : jsTruthyStr env.cfbdKey = true) (hargs : p.arguments = some args)
    (hname : p.name = some s) (hs : ¬ s ∈ knownToolNames) :
    dispatchToolCall env p id = errorResponse (-32601) (unknownToolMsg s) id := by
  unfold dispatchToolCall
  simp only [knownToolNames, List.mem_cons, List.not_mem_nil, or_false, not_or] at hs
  obtain ⟨h1, h2, h3, h4, h5, h6, h7⟩ := hs
  simp [hkey, hargs, hname, h1, h2, h3, h4, h5, h6, h7, unknownToolMsg, jsStr]

theorem toolResponse_is_ok {α : Type} (fetch : FetchOutcome α) (fmt : α → String)
    (id : Option Int) : ∃ t, toolResponse fetch fmt id = okContent t id :=
  ⟨_, rfl⟩

/-- Every dispatch of a registered tool name yields a 200 content result,
whatever the upstream outcome and key configuration. -/
theorem known_tool_ok (env : Env) (p : CallParams) (args : ToolArgs) (id : Option Int)
    (s : String) (hargs : p.arguments = some args) (hname : p.name = some s)
    (hmem : s ∈ knownToolNames) :
    ∃ t, dispatchToolCall env p id = okContent t id := by
  cases hkey : jsTruthyStr env.cfbdKey with
  | false => exact ⟨keyMissingMsg, dispatch_key_missing env p id hkey⟩
  | true =>
    simp only [knownToolNames, List.mem_cons, List.not_mem_nil, or_false] at hmem
    rcases hmem with h | h | h | h | h | h | h
    · rw [h] at hname
      rw [dispatch_score env p args id hkey hargs hname]
      exact toolResponse_is_ok ..
    · rw [h] at hname
      rw [dispatch_player_stats env p args id hkey hargs hname]
      exact toolResponse_is_ok ..
    · rw [h] at hname
      rw [dispatch_team_stats env p args id hkey hargs hname]
      exact toolResponse_is_ok ..
    · rw [h] at hname
      rw [dispatch_schedule env p args id hkey hargs hname]
      exact toolResponse_is_ok ..
    · rw [h] at hname
      rw [dispatch_rankings env p args id hkey hargs hname]
      exact toolResponse_is_ok ..
    · rw [h] at hname
      rw [dispatch_shooting env p args id hkey hargs hname]
      exact toolResponse_is_ok ..
    · rw [h] at hname
      rw [dispatch_roster env p args id hkey hargs hname]
      exact toolResponse_is_ok ..

/-! ## Claim theorems -/

/-- C1: while an auth secret is configured, any POST JSON-RPC request whose
Authorization header is absent or differs from `Bearer <secret>` is answered
with HTTP status 401 and a JSON-RPC error envelope carrying code -32001 and
message Unauthorized (no result member), echoing the request id — whatever
the method and params of the body. -/
theorem c1_auth_rejects_bad_bearer (env : Env) (auth : Option String) (body : RpcBody)
    (k : String) (hk : env.mcpApiKey = some k) (hk0 : ¬ k = "")
    (ha : ¬ auth = some ("Bearer " ++ k)) :
    handleMcpPost env auth body =
      { status := 401, result := none,
        error := some { code := -32001, message := msgUnauthorized }, id := body.id } := by
  unfold handleMcpPost
  rw [hk]
  have h1 : jsTruthyStr (some k) = true := by
    simp [jsTruthyStr, hk0]
  have h2 : (auth == some ("Bearer " ++ (some k).getD "")) = false := by
    rw [beq_eq_false_iff_ne]
    simpa using ha
  simp [h1, h2, unauthorized]
  intro _ heq
  exact absurd heq ha

/-! ## Concrete fixtures for witnesses and counterexamples -/

/-- A base environment: auth disabled, upstream key set, empty upstream data. -/
def baseEnv : Env where
  mcpApiKey := none
  cfbdKey := some "cfbd-key"
  currentYear := 2025
  gamesData := .ok []
  playerStatsData := .ok []
  teamStatsData := .ok []
  rankingsData := .ok []
  shootingData := .ok []
  rosterData := .ok []

def authSecret : String := "s3cret"

def authEnv : Env := { baseEnv with mcpApiKey := some authSecret }

def emptyArgs : ToolArgs where
  team := none
  year := none
  query := none

def oklahomaArgs : ToolArgs where
  team := some "oklahoma"
  year := some 2024
  query := none

def listBody : RpcBody where
  method := some toolsListMethodNm
  params := none
  id := some 7

/-- C1 witness: with secret s3cret configured and no Authorization header,
a tools/list body gets the 401 / -32001 / Unauthorized envelope. -/
theorem c1_witness :
    handleMcpPost authEnv none listBody =
      { status := 401, result := none,
        error := some { code := -32001, message := msgUnauthorized }, id := some 7 } :=
  c1_auth_rejects_bad_bearer authEnv none listBody authSecret rfl (by decide) (by decide)

/-- C2: a tools/call on a registered tool always answers with a result
envelope carrying text content and no error member — in particular under
every domain-level condition (missing upstream credential, non-2xx upstream
status, thrown timeout/network failure, empty payload, no season match),
since the environment quantifies over all upstream outcomes; and with the
upstream credential missing this holds for any tool name at all. -/
theorem c2_domain_conditions_are_results (env : Env) (p : CallParams) (id : Option Int)
    (h : jsTruthyStr env.cfbdKey = false ∨
         ∃ args s, p.arguments = some args ∧ p.name = some s ∧ s ∈ knownToolNames) :
    ∃ t, dispatchToolCall env p id = okContent t id ∧
      (okContent t id).error = none ∧
      (okContent t id).result = some (ResultPayload.content t) := by
  rcases h with hkey | ⟨args, s, hargs, hname, hmem⟩
  · exact ⟨keyMissingMsg, dispatch_key_missing env p id hkey, rfl, rfl⟩
  · obtain ⟨t, ht⟩ := known_tool_ok env p args id s hargs hname hmem
    exact ⟨t, ht, rfl, rfl⟩

def timeoutMsg : String := "The operation was aborted"

def scoreCallParams : CallParams where
  name := some scoreToolNm
  arguments := some oklahomaArgs

/-- C2 witness: the score tool against an upstream timeout produces a
result envelope with no error member. -/
theorem c2_witness :
    ∃ t, dispatchToolCall { baseEnv with gamesData := .failure timeoutMsg }
        scoreCallParams (some 2) = okContent t (some 2) ∧
      (okContent t (some 2)).error = none ∧
      (okContent t (some 2)).result = some (ResultPayload.content t) :=
  c2_domain_conditions_are_results
    { baseEnv with gamesData := .failure timeoutMsg } scoreCallParams (some 2)
    (Or.inr ⟨oklahomaArgs, scoreToolNm, rfl, rfl, by decide⟩)

def unknownToolName : String := "get_basketball_xyz"

def xyzCallParams : CallParams where
  name := some unknownToolName
  arguments := some oklahomaArgs

def noKeyEnv : Env := { baseEnv with cfbdKey := none }

/-- C3 counterexample: with no upstream key configured, a tools/call whose
name is the unregistered get_basketball_xyz is answered by a successful
result envelope (the credential text), not by a -32601 error — refuting the
claim that every unknown-tool call yields the -32601 error envelope. -/
theorem c3_counterexample :
    (dispatchToolCall noKeyEnv xyzCallParams (some 1)).error = none ∧
    (dispatchToolCall noKeyEnv xyzCallParams (some 1)).result =
      some (ResultPayload.content keyMissingMsg) := by
  exact ⟨rfl, rfl⟩

/-- C3 amended: when the upstream key is configured and the call carries an
arguments object, a tools/call whose params.name is not one of the 7
registered names is answered by the -32601 error envelope whose message
contains that name; without the key the same call instead gets the
credential-missing result. -/
theorem c3_unknown_tool_error (env : Env) (p : CallParams) (args : ToolArgs)
    (id : Option Int) (s : String)
    (hargs : p.arguments = some args) (hname : p.name = some s)
    (hs : ¬ s ∈ knownToolNames) :
    (jsTruthyStr env.cfbdKey = true →
      dispatchToolCall env p id = errorResponse (-32601) (unknownToolMsg s) id ∧
      jsIncludes (unknownToolMsg s) s = true) ∧
    (jsTruthyStr env.cfbdKey = false →
      dispatchToolCall env p id = okContent keyMissingMsg id) := by
  constructor
  · intro hkey
    refine ⟨dispatch_unknown env p args id s hkey hargs hname hs, ?_⟩
    have h : unknownToolMsg s = "Unknown tool: " ++ s := by
      simp [unknownToolMsg, toString]
    rw [h]
    exact jsIncludes_append_left _ s
  · intro hkey
    exact dispatch_key_missing env p id hkey

/-- C3 witness: with the key configured, the get_basketball_xyz call is
answered by the -32601 envelope naming the tool. -/
theorem c3_witness :
    dispatchToolCall baseEnv xyzCallParams (some 1) =
      errorResponse (-32601) (unknownToolMsg unknownToolName) (some 1) ∧
    jsIncludes (unknownToolMsg unknownToolName) unknownToolName = true :=
  (c3_unknown_tool_error baseEnv xyzCallParams oklahomaArgs (some 1) unknownToolName
    rfl rfl (by decide)).1 rfl

theorem length_bne_zero {α : Type} (l : List α) (h : ¬ l = []) :
    (l.length == 0) = false := by
  rw [beq_eq_false_iff_ne]
  intro hc
  exact h (List.length_eq_zero.mp hc)

/-- C4: for nonempty upstream arrays, the score, schedule, player-stats and
team-stats formatters depend only on the records whose season equals the
requested year: two nonempty payloads with equal season filtrations format
identically, so records of other seasons never contribute. -/
theorem c4_season_filter_only :
    (∀ (team : String) (year : Int) (d1 d2 : List Game), ¬ d1 = [] → ¬ d2 = [] →
       seasonGamesOf year d1 = seasonGamesOf year d2 →
       scoreText team year d1 = scoreText team year d2) ∧
    (∀ (team : String) (year cy : Int) (d1 d2 : List Game), ¬ d1 = [] → ¬ d2 = [] →
       seasonGamesOf year d1 = seasonGamesOf year d2 →
       scheduleText team year cy d1 = scheduleText team year cy d2) ∧
    (∀ (team : String) (year : Int) (query : Option String) (cy : Int)
       (d1 d2 : List PlayerStat), ¬ d1 = [] → ¬ d2 = [] →
       seasonPlayersOf year d1 = seasonPlayersOf year d2 →
       playerStatsText team year query cy d1 = playerStatsText team year query cy d2) ∧
    (∀ (team : String) (year cy : Int) (d1 d2 : List TeamSeasonStats),
       ¬ d1 = [] → ¬ d2 = [] →
       seasonTeamStatsOf year d1 = seasonTeamStatsOf year d2 →
       teamStatsText team year cy d1 = teamStatsText team year cy d2) := by
  refine ⟨?_, ?_, ?_, ?_⟩
  · intro team year d1 d2 h1 h2 hf
    have hrg : recentGameOf year d1 = recentGameOf year d2 := by
      unfold recentGameOf completedGamesOf
      rw [hf]
    unfold scoreText
    rw [length_bne_zero d1 h1, length_bne_zero d2 h2, hf, hrg]
  · intro team year cy d1 d2 h1 h2 hf
    unfold scheduleText
    rw [length_bne_zero d1 h1, length_bne_zero d2 h2, hf]
  · intro team year query cy d1 d2 h1 h2 hf
    unfold playerStatsText
    rw [length_bne_zero d1 h1, length_bne_zero d2 h2, hf]
  · intro team year cy d1 d2 h1 h2 hf
    unfold teamStatsText
    rw [length_bne_zero d1 h1, length_bne_zero d2 h2, hf]

def gameA : Game where
  season := 2024
  startDate := 100
  status := some statusFinal
  homeTeam := some "Oklahoma"
  awayTeam := some "Kansas"
  homePoints := some 80
  awayPoints := some 75

def gameB : Game where
  season := 2023
  startDate := 50
  status := some statusFinal
  homeTeam := some "Baylor"
  awayTeam := some "Oklahoma"
  homePoints := some 60
  awayPoints := some 70

def playerA : PlayerStat where
  season := 2024
  name := some "Jalon Moore"
  games := .val 20
  points := .val 300
  rebounds := none
  assists := .miss
  fieldGoals := none
  threePointFieldGoals := none
  freeThrows := none

def playerB : PlayerStat := { playerA with season := 2023, name := some "Old Guy" }

def teamA : TeamSeasonStats where
  season := 2024
  games := .val 30
  wins := .val 20
  losses := .val 10
  teamStats := some
    { fieldGoals := none, threePointFieldGoals := none, freeThrows := none,
      assists := .miss, rebounds := .miss, steals := .miss, blocks := .miss,
      turnovers := .miss }

def teamB : TeamSeasonStats := { teamA with season := 2023 }

/-- C4 witness: adding an other-season record to each payload leaves every
formatter output unchanged. -/
theorem c4_witness :
    scoreText "oklahoma" 2024 [gameA] = scoreText "oklahoma" 2024 [gameB, gameA] ∧
    scheduleText "oklahoma" 2024 2025 [gameA] = scheduleText "oklahoma" 2024 2025 [gameB, gameA] ∧
    playerStatsText "oklahoma" 2024 none 2025 [playerA] =
      playerStatsText "oklahoma" 2024 none 2025 [playerB, playerA] ∧
    teamStatsText "oklahoma" 2024 2025 [teamA] = teamStatsText "oklahoma" 2024 2025 [teamB, teamA] :=
  ⟨c4_season_filter_only.1 "oklahoma" 2024 [gameA] [gameB, gameA]
      (by decide) (by decide) (by decide),
   c4_season_filter_only.2.1 "oklahoma" 2024 2025 [gameA] [gameB, gameA]
      (by decide) (by decide) (by decide),
   c4_season_filter_only.2.2.1 "oklahoma" 2024 none 2025 [playerA] [playerB, playerA]
      (by decide) (by decide) (by decide),
   c4_season_filter_only.2.2.2 "oklahoma" 2024 2025 [teamA] [teamB, teamA]
      (by decide) (by decide) (by decide)⟩

theorem gameLeDesc_trans (a b c : Game) :
    gameLeDesc a b → gameLeDesc b c → gameLeDesc a c := by
  simp only [gameLeDesc, decide_eq_true_eq]
  omega

theorem gameLeDesc_total (a b : Game) : gameLeDesc a b || gameLeDesc b a := by
  simp only [gameLeDesc, Bool.or_eq_true, decide_eq_true_eq]
  omega

def c5Sub1 : String := "W vs Kansas"

def c5Sub2 : String := "Final: 80-75"

def c5Text : String :=
  "🏀 OKLAHOMA BASKETBALL - Most Recent Game\n\nW vs Kansas\nFinal: 80-75\nStatus: Final\n"

def c5Env : Env := { baseEnv with gamesData := .ok [gameA] }

def c5Body : RpcBody where
  method := some toolsCallMethodNm
  params := some scoreCallParams
  id := some 1

/-- C5: the concrete scenario — team oklahoma, year 2024, one final game
Oklahoma 80 at home over Kansas 75 — produces a result text containing
`W vs Kansas` and `Final: 80-75`; in general the score tool reports the game
selected by `recentGameOf`, which is a season-matching completed game whose
start date is maximal among them, and the reported mark is W exactly when
the requested team's score exceeds the opponent's. -/
theorem c5_score_scenario_and_selection :
    (handleMcpPost c5Env none c5Body = okContent c5Text (some 1) ∧
     jsIncludes c5Text c5Sub1 = true ∧ jsIncludes c5Text c5Sub2 = true) ∧
    (∀ (year : Int) (data : List Game), ¬ completedGamesOf year data = [] →
       ∃ g, recentGameOf year data = some g ∧ g ∈ completedGamesOf year data ∧
         ∀ g2 ∈ completedGamesOf year data, g2.startDate ≤ g.startDate) ∧
    (∀ ts os : Int, (gameResult (some ts) (some os) = winMark ↔ os < ts)) := by
  have hrg : recentGameOf 2024 [gameA] = some gameA := by
    unfold recentGameOf
    have h : completedGamesOf 2024 [gameA] = [gameA] := by decide
    rw [h, List.mergeSort_singleton]
    rfl
  have hst : scoreText "oklahoma" 2024 [gameA] = c5Text := by
    unfold scoreText
    rw [hrg]
    decide
  have hdisp : handleMcpPost c5Env none c5Body =
      okContent (scoreText "oklahoma" 2024 [gameA]) (some 1) := rfl
  refine ⟨⟨by rw [hdisp, hst], by decide, by decide⟩, ?_, ?_⟩
  · intro year data h
    cases hm : (completedGamesOf year data).mergeSort gameLeDesc with
    | nil =>
      exfalso
      have hlen := @List.length_mergeSort Game gameLeDesc (completedGamesOf year data)
      rw [hm] at hlen
      exact h (List.length_eq_zero.mp hlen.symm)
    | cons g rest =>
      refine ⟨g, ?_, ?_, ?_⟩
      · unfold recentGameOf
        rw [hm]
        rfl
      · exact List.mem_mergeSort.mp (hm ▸ List.mem_cons_self g rest)
      · intro g2 hg2
        have hg2s : g2 ∈ (completedGamesOf year data).mergeSort gameLeDesc :=
          List.mem_mergeSort.mpr hg2
        rw [hm] at hg2s
        rcases List.mem_cons.mp hg2s with he | ht
        · rw [he]
        · have hp := List.sorted_mergeSort
            gameLeDesc_trans gameLeDesc_total (completedGamesOf year data)
          rw [hm] at hp
          have hrel := List.rel_of_pairwise_cons hp ht
          simpa [gameLeDesc, decide_eq_true_eq] using hrel
  · intro ts os
    unfold gameResult jsGtOpt
    by_cases h : os < ts
    · simp [h, gt_iff_lt]
    · simp [h, gt_iff_lt, winMark, lossMark]

/-- C5 witness: containment of the scenario substrings, the selection facts
at the concrete single-game payload, and the W test at 80-75. -/
theorem c5_witness :
    jsIncludes c5Text c5Sub1 = true ∧
    (∃ g, recentGameOf 2024 [gameA] = some g ∧ g ∈ completedGamesOf 2024 [gameA] ∧
      ∀ g2 ∈ completedGamesOf 2024 [gameA], g2.startDate ≤ g.startDate) ∧
    (gameResult (some 80) (some 75) = winMark ↔ (75 : Int) < 80) :=
  ⟨c5_score_scenario_and_selection.1.2.1,
   c5_score_scenario_and_selection.2.1 2024 [gameA] (by decide),
   c5_score_scenario_and_selection.2.2 80 75⟩

/-- C6: on an empty (or null, which the guards treat identically) upstream
payload every tool formatter returns its team/year-scoped no-data message —
season filtering never runs — and through the dispatcher the score tool
answers exactly `No basketball games found for TEAM in YEAR`. -/
theorem c6_empty_payload_messages :
    (∀ (team : String) (year cy : Int),
      scoreText team year [] = noGamesYearMsg team year ∧
      playerStatsText team year none cy [] = noPlayerStatsMsg team year ∧
      teamStatsText team year cy [] = noTeamStatsMsg team year ∧
      scheduleText team year cy [] = noScheduleMsg team year ∧
      rankingsText team year [] = notRankedMsg team year ∧
      shootingText team year none [] = noShootingMsg team year ∧
      rosterText team year cy [] = noRosterMsg team year) ∧
    (∀ (env : Env) (p : CallParams) (args : ToolArgs) (id : Option Int),
      jsTruthyStr env.cfbdKey = true → p.arguments = some args →
      p.name = some scoreToolNm → env.gamesData = .ok [] →
      dispatchToolCall env p id =
        okContent (noGamesYearMsg (teamUsed args) (yearUsed args)) id) := by
  constructor
  · intro team year cy
    exact ⟨rfl, rfl, rfl, rfl, rfl, rfl, rfl⟩
  · intro env p args id hkey hargs hname hdata
    rw [dispatch_score env p args id hkey hargs hname, hdata]
    rfl

/-- C6 witness: the empty-payload score call for oklahoma, 2024 yields
exactly the scenario text. -/
theorem c6_witness :
    dispatchToolCall baseEnv scoreCallParams (some 4) =
      okContent (noGamesYearMsg (teamUsed oklahomaArgs) (yearUsed oklahomaArgs)) (some 4) ∧
    noGamesYearMsg (teamUsed oklahomaArgs) (yearUsed oklahomaArgs) =
      "No basketball games found for OKLAHOMA in 2024" :=
  ⟨c6_empty_payload_messages.2 baseEnv scoreCallParams oklahomaArgs (some 4)
      rfl rfl rfl rfl,
   by decide⟩

theorem listContains_append_of (xs ys nl : List Char) (h : listContains ys nl = true) :
    listContains (xs ++ ys) nl = true := by
  induction xs with
  | nil => simpa using h
  | cons x rest ih =>
    unfold listContains
    simp only [List.cons_append, Bool.or_eq_true]
    exact Or.inr ih

theorem jsIncludes_prepend (a s l : String) (h : jsIncludes s l = true) :
    jsIncludes (a ++ s) l = true := by
  unfold jsIncludes at h ⊢
  have hd : (a ++ s).toList = a.toList ++ s.toList := by
    simp [String.toList, String.data_append]
  rw [hd]
  exact listContains_append_of a.toList s.toList l.toList h

theorem jsIncludes_prefix_append (l r : String) : jsIncludes (l ++ r) l = true := by
  unfold jsIncludes
  have hd : (l ++ r).toList = l.toList ++ r.toList := by
    simp [String.toList, String.data_append]
  rw [hd]
  unfold listContains
  simp [List.isPrefixOf_iff_prefix]

/-- C7: when the query extracts a name matching exactly one season record,
the detail text contains the points-per-game line, and that line renders
the cumulative points total divided by games played (games defaulting to 1
when falsy) to one decimal place. -/
theorem c7_points_per_game (team : String) (year cy : Int) (query nm : String)
    (data : List PlayerStat) (p : PlayerStat) (pts : ℚ)
    (hq : extractPlayerName query = some nm)
    (hd : ¬ data = [])
    (hfil : (seasonPlayersOf year data).filter (playerNameTest nm) = [p])
    (hpts : p.points = JsNum.val pts) (hp0 : ¬ pts = 0) :
    jsIncludes (playerStatsText team year (some query) cy data) (pointsPerGameLine p) = true ∧
    pointsPerGameLine p =
      "Points Per Game: " ++ toFixed1 (pts / p.games.jsOr 1) ++ "\n" := by
  have hne : ¬ seasonPlayersOf year data = [] := by
    intro hc
    rw [hc] at hfil
    simp at hfil
  have hq0 : (query == "") = false := by
    rw [beq_eq_false_iff_ne]
    intro hc
    subst hc
    rw [show extractPlayerName "" = none from rfl] at hq
    exact Option.noConfusion hq
  have hqn : queryName (some query) = some nm := by
    unfold queryName
    simp [hq0, hq]
  have htr : p.points.truthy = true := by
    simp [JsNum.truthy, hpts, hp0]
  constructor
  · have h1 := length_bne_zero data hd
    have h2 := length_bne_zero (seasonPlayersOf year data) hne
    unfold playerStatsText
    simp only [h1, h2, Bool.false_eq_true, if_false, hqn, hfil, List.length_cons,
      List.length_nil, List.head?_cons, Nat.zero_add]
    simp only [show ((1 : Nat) == 0) = false from rfl, Bool.false_eq_true, if_false]
    unfold playerDetailText
    rw [htr]
    simp only [if_true, String.append_assoc]
    repeat
      first
      | exact jsIncludes_prefix_append _ _
      | apply jsIncludes_prepend
  · unfold pointsPerGameLine
    rw [hpts]
    simp [JsNum.get0, toString]

theorem ratFloor_eq_intFloor (q : ℚ) : q.floor = ⌊q⌋ := by
  rw [Rat.floor_def', Rat.floor_def]

def jalonQuery : String := "Jalon Moore"

/-- C7 witness: the Jalon Moore record with 300 points over 20 games renders
its per-game points as 15.0. -/
theorem c7_witness :
    jsIncludes (playerStatsText "oklahoma" 2024 (some jalonQuery) 2025 [playerA])
      (pointsPerGameLine playerA) = true ∧
    pointsPerGameLine playerA = "Points Per Game: 15.0\n" := by
  have h := c7_points_per_game "oklahoma" 2024 2025 jalonQuery jalonQuery [playerA] playerA 300
    (by decide) (by decide) (by decide) rfl (by decide)
  refine ⟨h.1, ?_⟩
  rw [h.2]
  have h15 : (300 : ℚ) / JsNum.jsOr playerA.games 1 = 15 := by
    norm_num [JsNum.jsOr, JsNum.truthy, JsNum.get0, playerA]
  rw [h15]
  have hfl : ((15 : ℚ) * 10 + 1 / 2).floor = 150 := by
    rw [ratFloor_eq_intFloor]
    norm_num
  unfold toFixed1 toFixed1Abs
  rw [if_neg (by norm_num)]
  simp only [hfl]
  decide

def mooreName : String := "Moore"

def mooreShooting : ShootingStat where
  player := some mooreName
  fg_pct := .miss
  two_pt_pct := .miss
  three_pt_pct := .miss
  ft_pct := .miss

def c8Env : Env := { baseEnv with shootingData := .ok [mooreShooting] }

def c8Args : ToolArgs where
  team := some "oklahoma"
  year := some 2025
  query := some jalonQuery

def c8Params : CallParams where
  name := some shootingToolNm
  arguments := some c8Args

/-- C8 counterexample: the extracted name Jalon Moore and the record name
Moore satisfy the case-insensitive bidirectional substring test, yet the
shooting tool's filter does not match the record — it only checks whether
the record name contains the extracted name — so the whole call returns the
player-not-found text instead of the record. -/
theorem c8_counterexample :
    shootingNameTest jalonQuery mooreShooting = false ∧
    (jsIncludes (jsToLower mooreName) (jsToLower jalonQuery) ||
     jsIncludes (jsToLower jalonQuery) (jsToLower mooreName)) = true ∧
    dispatchToolCall c8Env c8Params (some 5) =
      okContent (noShootingPlayerMsg jalonQuery "oklahoma" 2025) (some 5) := by
  refine ⟨by decide, by decide, by decide⟩

/-- C8 amended: the player-stats filter is the case-insensitive
bidirectional substring test; the shooting lookup instead matches only when
the record's name contains the extracted name, and never matches a record
without a name. -/
theorem c8_name_filter_direction :
    (∀ (nm n : String) (p : PlayerStat), p.name = some n →
      playerNameTest nm p =
        (jsIncludes (jsToLower n) (jsToLower nm) || jsIncludes (jsToLower nm) (jsToLower n))) ∧
    (∀ (nm n : String) (q : ShootingStat), q.player = some n →
      shootingNameTest nm q = jsIncludes (jsToLower n) (jsToLower nm)) ∧
    (∀ (nm : String) (q : ShootingStat), q.player = none →
      shootingNameTest nm q = false) := by
  refine ⟨?_, ?_, ?_⟩
  · intro nm n p hp
    simp [playerNameTest, hp]
  · intro nm n q hq
    simp [shootingNameTest, hq]
  · intro nm q hq
    simp [shootingNameTest, hq]

def moorePlayer : PlayerStat := { playerA with name := some mooreName }

/-- C8 witness: the direction equations evaluated at Jalon Moore vs Moore. -/
theorem c8_witness :
    playerNameTest jalonQuery moorePlayer =
      (jsIncludes (jsToLower mooreName) (jsToLower jalonQuery) ||
       jsIncludes (jsToLower jalonQuery) (jsToLower mooreName)) ∧
    shootingNameTest jalonQuery mooreShooting =
      jsIncludes (jsToLower mooreName) (jsToLower jalonQuery) :=
  ⟨c8_name_filter_direction.1 jalonQuery mooreName moorePlayer rfl,
   c8_name_filter_direction.2.1 jalonQuery mooreName mooreShooting rfl⟩

def game2026 : Game := { gameA with season := 2026 }

def c9Env : Env := { baseEnv with currentYear := 2026, gamesData := .ok [game2026] }

def c9Args : ToolArgs where
  team := some "oklahoma"
  year := none
  query := none

def c9Params : CallParams where
  name := some scoreToolNm
  arguments := some c9Args

/-- C9 counterexample: with the process running in 2026 (the current season
keyed 2026 by the code's own hint messages), a score call omitting year uses
the hardcoded 2025, not the current season's year: a payload holding only a
season-2026 game is answered with the no-games-in-2024-2025 message. -/
theorem c9_counterexample :
    yearUsed c9Args = 2025 ∧
    c9Env.currentYear = 2026 ∧
    ¬ yearUsed c9Args = c9Env.currentYear ∧
    dispatchToolCall c9Env c9Params (some 6) =
      okContent (noGamesSeasonMsg "oklahoma" 2025) (some 6) := by
  refine ⟨rfl, rfl, by decide, by decide⟩

/-- C9 amended: when the year argument is absent (or 0, which is falsy),
the season year used by every tool is the constant 2025 — the call behaves
exactly as if year 2025 had been passed. -/
theorem c9_year_defaults_2025 (env : Env) (p : CallParams) (args : ToolArgs)
    (id : Option Int) (hargs : p.arguments = some args) (hyear : args.year = none) :
    yearUsed args = 2025 ∧
    dispatchToolCall env p id =
      dispatchToolCall env { p with arguments := some { args with year := some 2025 } } id := by
  constructor
  · simp [yearUsed, jsOrInt, hyear]
  · unfold dispatchToolCall
    simp [hargs, teamUsed, yearUsed, jsOrInt, hyear]

/-- C9 witness: the defaulting applied to the concrete year-omitting call. -/
theorem c9_witness :
    yearUsed c9Args = 2025 ∧
    dispatchToolCall c9Env c9Params (some 6) =
      dispatchToolCall c9Env
        { c9Params with arguments := some { c9Args with year := some 2025 } } (some 6) :=
  c9_year_defaults_2025 c9Env c9Params c9Args (some 6) rfl rfl

/-- C10: the published schemas mark team as required, yet a tools/call whose
arguments omit team (or pass the falsy empty string) is never rejected:
every handler proceeds with the default team oklahoma — the call behaves
exactly as if team oklahoma had been passed — and registered tools still
answer without an error member. -/
theorem c10_missing_team_defaults :
    (∀ td ∈ toolCatalog, td.inputSchema.required = ["team"]) ∧
    (∀ args : ToolArgs, args.team = none ∨ args.team = some "" →
      teamUsed args = defaultTeam) ∧
    (∀ (env : Env) (p : CallParams) (args : ToolArgs) (id : Option Int),
      p.arguments = some args → (args.team = none ∨ args.team = some "") →
      dispatchToolCall env p id =
        dispatchToolCall env { p with arguments := some { args with team := some defaultTeam } } id) ∧
    (∀ (env : Env) (p : CallParams) (args : ToolArgs) (id : Option Int) (s : String),
      p.arguments = some args → p.name = some s → s ∈ knownToolNames →
      (dispatchToolCall env p id).error = none) := by
  refine ⟨by decide, ?_, ?_, ?_⟩
  · intro args h
    rcases h with h | h <;> simp [teamUsed, jsOrStr, h] <;> rfl
  · intro env p args id hargs h
    unfold dispatchToolCall
    rcases h with h | h <;> simp [hargs, teamUsed, jsOrStr, yearUsed, jsOrInt, h]
  · intro env p args id s hargs hname hmem
    obtain ⟨t, ht⟩ := known_tool_ok env p args id s hargs hname hmem
    rw [ht]
    rfl

def noTeamArgs : ToolArgs where
  team := none
  year := some 2024
  query := none

def noTeamParams : CallParams where
  name := some rosterToolNm
  arguments := some noTeamArgs

/-- C10 witness: a roster call omitting team defaults to oklahoma and is
answered without an error member. -/
theorem c10_witness :
    teamUsed noTeamArgs = defaultTeam ∧
    dispatchToolCall baseEnv noTeamParams (some 8) =
      dispatchToolCall baseEnv
        { noTeamParams with arguments := some { noTeamArgs with team := some defaultTeam } }
        (some 8) ∧
    (dispatchToolCall baseEnv noTeamParams (some 8)).error = none :=
  ⟨c10_missing_team_defaults.2.1 noTeamArgs (Or.inl rfl),
   c10_missing_team_defaults.2.2.1 baseEnv noTeamParams noTeamArgs (some 8) rfl (Or.inl rfl),
   c10_missing_team_defaults.2.2.2 baseEnv noTeamParams noTeamArgs (some 8) rosterToolNm
     rfl rfl (by decide)⟩
